import Mathlib

/-!
# Verification of the taxtastic refpkg core (src/taxtastic/refpkg.py)

A shallow embedding of the package engine: the manifest data model, the
`transaction` decorator, metadata/file updates, the single-level
rollback/rollforward chain, and the `isinvalid` integrity checker.

Modelling conventions:
* A Python dict with string keys is an association list kept in
  update-in-place / append-on-new-key order (`insertD`).
* The manifest dict may lack the `log` key (it is removed with `pop` when a
  snapshot is demoted), so `log` is an `Option (List String)` where `none`
  means the key is absent.  The `rollback` key is removed by `pop` only in
  the rollforward record, and that record's `rollback` slot is always
  reassigned before any read, so key-absent and value-`None` are
  observationally equivalent for it and are both modelled as `none`.
* Python exceptions are values of `PyError`; a raising call returns
  `Except PyError` paired with the state at raise time, since mutations
  made before a raise persist.
* The MD5 function reads file bytes; it is a parameter `md5f` of the
  definitions that hash, so theorems hold for every digest function.
* `Refpkg.disk` is the decoded content of the CONTENTS.json file in the
  package directory; `Refpkg.dir` holds the other files (name, bytes).
-/

namespace Taxtastic

/-- Python exception values distinguished by class and message. -/
inductive PyError : Type where
  | valueError (msg : String)
  | typeError (msg : String)
  | keyError (msg : String)
  | indexError (msg : String)
  | attributeError (msg : String)
  | osError (msg : String)
deriving DecidableEq

/-- The manifest dict: `metadata`, `files`, `md5` are dicts of strings;
`log` is a list of strings whose key may be absent (`none`); `rollback` is
`None` or a nested manifest; `rollforward` is `None` or a
`[message, manifest]` pair. -/
inductive Manifest : Type where
  | mk (metadata files md5 : List (String × String))
      (log : Option (List String))
      (rollback : Option Manifest)
      (rollforward : Option (String × Manifest))

def Manifest.metadata : Manifest → List (String × String)
  | .mk a _ _ _ _ _ => a

def Manifest.files : Manifest → List (String × String)
  | .mk _ a _ _ _ _ => a

def Manifest.md5 : Manifest → List (String × String)
  | .mk _ _ a _ _ _ => a

def Manifest.log : Manifest → Option (List String)
  | .mk _ _ _ a _ _ => a

def Manifest.rollback : Manifest → Option Manifest
  | .mk _ _ _ _ a _ => a

def Manifest.rollforward : Manifest → Option (String × Manifest)
  | .mk _ _ _ _ _ a => a

def Manifest.setMetadata : Manifest → List (String × String) → Manifest
  | .mk _ b c d e f, a => .mk a b c d e f

def Manifest.setFiles : Manifest → List (String × String) → Manifest
  | .mk a _ c d e f, b => .mk a b c d e f

def Manifest.setMd5 : Manifest → List (String × String) → Manifest
  | .mk a b _ d e f, c => .mk a b c d e f

def Manifest.setLog : Manifest → Option (List String) → Manifest
  | .mk a b c _ e f, d => .mk a b c d e f

def Manifest.setRollback : Manifest → Option Manifest → Manifest
  | .mk a b c d _ f, e => .mk a b c d e f

def Manifest.setRollforward : Manifest → Option (String × Manifest) → Manifest
  | .mk a b c d e _, f => .mk a b c d e f

/-- Python dict assignment `d[k] = v`: replace in place when the key is
present, append otherwise. -/
def insertD (d : List (String × String)) (k v : String) : List (String × String) :=
  if (d.lookup k).isSome then d.map (fun p => if p.1 = k then (k, v) else p)
  else d ++ [(k, v)]

/-- `files.keys() == md5.keys()` compares the key sets of the two dicts. -/
def keysEq (a b : List (String × String)) : Bool :=
  (a.map Prod.fst).all (fun k => (b.map Prod.fst).contains k) &&
    (b.map Prod.fst).all (fun k => (a.map Prod.fst).contains k)

/-- `os.path.basename`: the component after the last slash. -/
def basename (p : String) : String := (p.splitOn "/").getLastD ""

/-- `os.unlink` of one file of the package directory. -/
def eraseKey (d : List (String × String)) (k : String) : List (String × String) :=
  d.filter (fun p => p.1 ≠ k)

def maxLen (l : List String) : Nat := l.foldr (fun s n => max s.length n) 0

theorem length_le_maxLen {s : String} {l : List String} (h : s ∈ l) :
    s.length ≤ maxLen l := by
  induction l with
  | nil => cases h
  | cons a t ih =>
    rcases List.mem_cons.mp h with h | h
    · simp [h, maxLen, Nat.le_max_left]
    · calc s.length ≤ maxLen t := ih h
        _ ≤ maxLen (a :: t) := by simp [maxLen, Nat.le_max_right]

/-- The collision-avoidance loop of `update_file`: while a file of that name
exists in the package directory, append the suffix character "1". -/
def resolveName (dirNames : List String) (fn : String) : String :=
  if h : fn ∈ dirNames then resolveName dirNames (fn ++ "1") else fn
termination_by maxLen dirNames + 1 - fn.length
decreasing_by
  have h1 : fn.length ≤ maxLen dirNames := length_le_maxLen h
  have h2 : (fn ++ "1").length = fn.length + 1 := by
    rw [String.length_append]
    rfl
  omega

def manifestName : String := "CONTENTS.json"

/-- `manifest_template()`; the `create_date` timestamp is a parameter. -/
def manifest_template (create_date : String) : Manifest :=
  .mk [("create_date", create_date), ("format_version", "1.1")] [] [] (some []) none none

/-- The `current_transaction` dict: the entry snapshot and the log message. -/
structure Trans : Type where
  rollback : Manifest
  log : String

/-- An open package handle plus the piece of the world it owns: the
in-memory manifest, the decoded on-disk manifest file, and the other files
of the package directory. -/
structure Refpkg : Type where
  contents : Manifest
  disk : Manifest
  dir : List (String × String)
  currentTransaction : Option Trans

/-- `Refpkg(path)` on a nonexistent path: mkdir, dump the template, load it. -/
def freshRefpkg (create_date : String) : Refpkg :=
  { contents := manifest_template create_date
    disk := manifest_template create_date
    dir := []
    currentTransaction := none }

def placeholderMsg : String := "(Transaction left no log message)"

/-- The AttributeError raised by the revert path of `transaction`: it calls
`self.sync_to_disk()`, but the class only defines `_sync_to_disk`. -/
def syncAttrError : PyError :=
  .attributeError "Refpkg instance has no attribute sync_to_disk"

def withTransaction (s : Refpkg) : Refpkg :=
  { s with currentTransaction := some ⟨s.contents, placeholderMsg⟩ }

/-- Outcome of the `except` clause of `transaction`: the in-memory manifest
is replaced with the snapshot, then the `self.sync_to_disk()` attribute
lookup fails, so an AttributeError propagates instead of the body's
exception and nothing is written to disk.  The `finally` clause still
clears `current_transaction`. -/
def revertResult (α : Type) (ct : Trans) (s1 : Refpkg) :
    Except PyError (Option α) × Refpkg :=
  (.error syncAttrError,
   { s1 with contents := ct.rollback, currentTransaction := none })

/-- The `transaction` decorator.  Reentrant calls run the body and discard
its result (the `if` branch has no `return`).  An owner call snapshots the
manifest, runs the body, and on success inserts the log message, stores the
snapshot (with its `log` key popped) as `rollback`, and syncs to disk; the
commit steps run inside the `try`, so a KeyError from them also lands in
the `except` clause. -/
def transaction {α : Type} (f : Refpkg → Except PyError α × Refpkg) (s : Refpkg) :
    Except PyError (Option α) × Refpkg :=
  match s.currentTransaction with
  | some _ =>
    match f s with
    | (.ok _, s1) => (.ok none, s1)
    | (.error e, s1) => (.error e, s1)
  | none =>
    match f (withTransaction s) with
    | (.ok v, s1) =>
      match s1.currentTransaction with
      | none =>
        (.error (.typeError "NoneType object is not subscriptable"),
         { s1 with currentTransaction := none })
      | some ct =>
        match s1.contents.log with
        | none => revertResult α ct s1
        | some l =>
          match ct.rollback.log with
          | none => revertResult α ct s1
          | some _ =>
            let c2 := ((s1.contents.setLog (some (ct.log :: l))).setRollback
              (some (ct.rollback.setLog none)))
            (.ok (some v), { s1 with contents := c2, disk := c2, currentTransaction := none })
    | (.error _, s1) =>
      match s1.currentTransaction with
      | none =>
        (.error (.typeError "NoneType object is not subscriptable"),
         { s1 with currentTransaction := none })
      | some ct => revertResult α ct s1

/-- Body of `update_metadata`: read the old value, assign the new one, set
the transaction log message (`_log` subscripts `current_transaction`, so it
raises a TypeError if no transaction is open). -/
def update_metadata_body (key value : String) (s : Refpkg) :
    Except PyError (Option String) × Refpkg :=
  let old := s.contents.metadata.lookup key
  let s1 := { s with contents := s.contents.setMetadata (insertD s.contents.metadata key value) }
  match s1.currentTransaction with
  | none => (.error (.typeError "NoneType object does not support item assignment"), s1)
  | some t =>
    let t1 := Trans.mk t.rollback ("Updated metadata: " ++ key ++ "=" ++ value)
    (.ok old, { s1 with currentTransaction := some t1 })

def update_metadata (key value : String) (s : Refpkg) :
    Except PyError (Option (Option String)) × Refpkg :=
  transaction (update_metadata_body key value) s

/-- Body of `update_file`: check the source exists in the external
filesystem `fs`, hash it, resolve a non-colliding filename (the directory
listing includes CONTENTS.json), unlink the file previously registered
under the key, copy the source in, update `files` and `md5`, log, and
return `(key, md5)`. -/
def update_file_body (md5f : String → String) (fs : List (String × String))
    (key new_path : String) (s : Refpkg) :
    Except PyError (String × String) × Refpkg :=
  match fs.lookup new_path with
  | none => (.error (.valueError ("Cannot update Refpkg with file " ++ new_path)), s)
  | some bytes =>
    let md5v := md5f bytes
    let filename := resolveName (manifestName :: s.dir.map Prod.fst) (basename new_path)
    let del : Except PyError (List (String × String)) :=
      match s.contents.files.lookup key with
      | none => .ok s.dir
      | some oldfn =>
        if (s.dir.lookup oldfn).isSome then .ok (eraseKey s.dir oldfn)
        else .error (.osError ("No such file or directory: " ++ oldfn))
    match del with
    | .error e => (.error e, s)
    | .ok dir1 =>
      let c := (s.contents.setFiles (insertD s.contents.files key filename)).setMd5
        (insertD s.contents.md5 key md5v)
      let s1 := { s with dir := dir1 ++ [(filename, bytes)], contents := c }
      match s1.currentTransaction with
      | none => (.error (.typeError "NoneType object does not support item assignment"), s1)
      | some t =>
        let t1 := Trans.mk t.rollback ("Updated file: " ++ key ++ "=" ++ new_path)
        (.ok (key, md5v), { s1 with currentTransaction := some t1 })

def update_file (md5f : String → String) (fs : List (String × String))
    (key new_path : String) (s : Refpkg) :
    Except PyError (Option (String × String)) × Refpkg :=
  transaction (update_file_body md5f fs key new_path) s

/-- `rollback()`: demote the current manifest (minus its `rollback` key)
into a rollforward record with the top log entry, and promote the stored
rollback snapshot, overriding its log and rollforward.  The accesses
`log[0]` and `log[1:]` are unguarded: a missing key or an empty list raise. -/
def rollback (s : Refpkg) : Except PyError Unit × Refpkg :=
  match s.contents.rollback with
  | none => (.error (.valueError "No operation to roll back on refpkg"), s)
  | some rb =>
    match s.contents.log with
    | none => (.error (.keyError "log"), s)
    | some [] => (.error (.indexError "list index out of range"), s)
    | some (future_msg :: rest) =>
      let rf := s.contents.setRollback none
      let c := (rb.setLog (some rest)).setRollforward (some (future_msg, rf))
      (.ok (), { s with contents := c })

/-- `rollforward()`: promote the stored future, giving it the saved message
prepended to the current log as its log, and the current manifest (with its
`log` key popped and `rollforward` cleared) as its rollback. -/
def rollforward (s : Refpkg) : Except PyError Unit × Refpkg :=
  match s.contents.rollforward with
  | none => (.error (.valueError "No operation to roll forward on refpkg"), s)
  | some (msg, future) =>
    match s.contents.log with
    | none => (.error (.keyError "log"), s)
    | some curlog =>
      let f1 := future.setLog (some (msg :: curlog))
      let c1 := (s.contents.setLog none).setRollforward none
      (.ok (), { s with contents := f1.setRollback (some c1) })

/-- The per-key loop of `isinvalid`: for each `(key, filename)` of `files`,
read the expected digest, check existence, recompute and compare.  The
mismatch branch evaluates a format string with four conversions but only
two arguments, so it raises a TypeError instead of returning its message. -/
def checkFilesMd5 (md5f : String → String) (dir : List (String × String))
    (md5s : List (String × String)) :
    List (String × String) → Except PyError (Option String)
  | [] => .ok none
  | (key, filename) :: rest =>
    match md5s.lookup key with
    | none => .error (.keyError key)
    | some expected =>
      match dir.lookup filename with
      | none =>
        .ok (some ("File " ++ filename ++ " referred to by key " ++ key ++
          " not found in refpkg"))
      | some bytes =>
        if md5f bytes = expected then checkFilesMd5 md5f dir md5s rest
        else .error (.typeError "not enough arguments for format string")

/-- `isinvalid()`: `.ok none` is the valid outcome (Python `False`),
`.ok (some msg)` a returned violation, `.error` a raised exception.  The
checks on `metadata`/`files`/`md5` presence and dict-ness hold by typing in
this model.  The `rollback`/`rollforward` check requires each to be a dict
or `None`; a rollforward pair is a two-element list, so it is rejected. -/
def isinvalid (md5f : String → String) (hasManifest : Bool)
    (dir : List (String × String)) (m : Manifest) : Except PyError (Option String) :=
  if !hasManifest then
    .ok (some ("No manifest file " ++ manifestName ++ " found"))
  else
    match m.rollforward with
    | some _ => .ok (some "Key rollforward in manifest did not refer to a dictionary or None")
    | none =>
      match m.log with
      | none => .ok (some "Manifest file missing key log")
      | some _ =>
        if !keysEq m.files m.md5 then
          .ok (some "Files and MD5 sums in manifest do not match")
        else checkFilesMd5 md5f dir m.md5 m.files

/-- `Refpkg.__init__` on an existing package directory: load the manifest,
run `isinvalid`, raise ValueError on a returned violation, propagate any
exception isinvalid raises. -/
def openRefpkg (md5f : String → String) (dir : List (String × String))
    (diskManifest : Manifest) : Except PyError Refpkg :=
  match isinvalid md5f true dir diskManifest with
  | .error e => .error e
  | .ok (some err) => .error (.valueError ("is not a valid RefPkg: " ++ err))
  | .ok none =>
    .ok { contents := diskManifest, disk := diskManifest, dir := dir
          currentTransaction := none }

/-! ## Accessor and setter lemmas -/

@[simp] theorem log_setMetadata (m : Manifest) (x : List (String × String)) :
    (m.setMetadata x).log = m.log := by cases m; rfl

@[simp] theorem log_setFiles (m : Manifest) (x : List (String × String)) :
    (m.setFiles x).log = m.log := by cases m; rfl

@[simp] theorem log_setMd5 (m : Manifest) (x : List (String × String)) :
    (m.setMd5 x).log = m.log := by cases m; rfl

@[simp] theorem log_setLog (m : Manifest) (x : Option (List String)) :
    (m.setLog x).log = x := by cases m; rfl

@[simp] theorem log_setRollback (m : Manifest) (x : Option Manifest) :
    (m.setRollback x).log = m.log := by cases m; rfl

@[simp] theorem log_setRollforward (m : Manifest) (x : Option (String × Manifest)) :
    (m.setRollforward x).log = m.log := by cases m; rfl

@[simp] theorem rollback_setMetadata (m : Manifest) (x : List (String × String)) :
    (m.setMetadata x).rollback = m.rollback := by cases m; rfl

@[simp] theorem rollback_setFiles (m : Manifest) (x : List (String × String)) :
    (m.setFiles x).rollback = m.rollback := by cases m; rfl

@[simp] theorem rollback_setMd5 (m : Manifest) (x : List (String × String)) :
    (m.setMd5 x).rollback = m.rollback := by cases m; rfl

@[simp] theorem rollback_setLog (m : Manifest) (x : Option (List String)) :
    (m.setLog x).rollback = m.rollback := by cases m; rfl

@[simp] theorem rollback_setRollback (m : Manifest) (x : Option Manifest) :
    (m.setRollback x).rollback = x := by cases m; rfl

@[simp] theorem rollback_setRollforward (m : Manifest) (x : Option (String × Manifest)) :
    (m.setRollforward x).rollback = m.rollback := by cases m; rfl

@[simp] theorem rollforward_setMetadata (m : Manifest) (x : List (String × String)) :
    (m.setMetadata x).rollforward = m.rollforward := by cases m; rfl

@[simp] theorem rollforward_setFiles (m : Manifest) (x : List (String × String)) :
    (m.setFiles x).rollforward = m.rollforward := by cases m; rfl

@[simp] theorem rollforward_setMd5 (m : Manifest) (x : List (String × String)) :
    (m.setMd5 x).rollforward = m.rollforward := by cases m; rfl

@[simp] theorem rollforward_setLog (m : Manifest) (x : Option (List String)) :
    (m.setLog x).rollforward = m.rollforward := by cases m; rfl

@[simp] theorem rollforward_setRollback (m : Manifest) (x : Option Manifest) :
    (m.setRollback x).rollforward = m.rollforward := by cases m; rfl

@[simp] theorem rollforward_setRollforward (m : Manifest) (x : Option (String × Manifest)) :
    (m.setRollforward x).rollforward = x := by cases m; rfl

/-! ## Helper characterizations of the operations -/

/-- A top-level `update_metadata` call at a state whose manifest has a log:
the commit path prepends the log message, demotes the entry snapshot (log
popped) into `rollback`, syncs, clears the transaction, and returns the old
value. -/
theorem update_metadata_run (k v : String) (s : Refpkg) (l : List String)
    (hct : s.currentTransaction = none) (hlog : s.contents.log = some l) :
    update_metadata k v s =
      (.ok (some (s.contents.metadata.lookup k)),
       { contents := ((s.contents.setMetadata (insertD s.contents.metadata k v)).setLog
            (some (("Updated metadata: " ++ k ++ "=" ++ v) :: l))).setRollback
            (some (s.contents.setLog none))
         disk := ((s.contents.setMetadata (insertD s.contents.metadata k v)).setLog
            (some (("Updated metadata: " ++ k ++ "=" ++ v) :: l))).setRollback
            (some (s.contents.setLog none))
         dir := s.dir
         currentTransaction := none }) := by
  obtain ⟨c, dk, dr, ct⟩ := s
  cases c with
  | mk md fls h5 lg rb rf =>
    simp only at hct hlog
    simp only [Manifest.log] at hlog
    subst hct
    subst hlog
    rfl

/-- Reentrant branch of `transaction`: the body runs but its result is
discarded. -/
theorem transaction_reentrant {α : Type} (f : Refpkg → Except PyError α × Refpkg)
    (s s1 : Refpkg) (t : Trans) (v : α)
    (hct : s.currentTransaction = some t) (hf : f s = (.ok v, s1)) :
    transaction f s = (.ok none, s1) := by
  unfold transaction
  rw [hct, hf]

/-- Owner commit branch of `transaction`: the body result is wrapped in
`some` and returned. -/
theorem transaction_commit {α : Type} (f : Refpkg → Except PyError α × Refpkg)
    (s s1 : Refpkg) (ct : Trans) (v : α) (l l2 : List String)
    (hct : s.currentTransaction = none) (hf : f (withTransaction s) = (.ok v, s1))
    (hct1 : s1.currentTransaction = some ct) (hl : s1.contents.log = some l)
    (hl2 : ct.rollback.log = some l2) :
    transaction f s =
      (.ok (some v),
       { s1 with
          contents := (s1.contents.setLog (some (ct.log :: l))).setRollback
            (some (ct.rollback.setLog none))
          disk := (s1.contents.setLog (some (ct.log :: l))).setRollback
            (some (ct.rollback.setLog none))
          currentTransaction := none }) := by
  unfold transaction
  rw [hct, hf]
  dsimp only
  rw [hct1]
  dsimp only
  rw [hl]
  dsimp only
  rw [hl2]

/-- Owner revert branch of `transaction`: a failing body leads to the
in-memory revert followed by the failing `sync_to_disk` attribute lookup,
with nothing written to disk. -/
theorem transaction_fail {α : Type} (f : Refpkg → Except PyError α × Refpkg)
    (s s1 : Refpkg) (ct : Trans) (e : PyError)
    (hct : s.currentTransaction = none) (hf : f (withTransaction s) = (.error e, s1))
    (hct1 : s1.currentTransaction = some ct) :
    transaction f s =
      (.error syncAttrError,
       { s1 with contents := ct.rollback, currentTransaction := none }) := by
  unfold transaction
  rw [hct, hf]
  dsimp only
  rw [hct1]
  rfl

/-! ## Reachable states and the rollback-chain invariant -/

/-- Length of the chain of nested `rollback` snapshots. -/
def chainDepth : Manifest → Nat
  | .mk _ _ _ _ none _ => 0
  | .mk _ _ _ _ (some r) _ => chainDepth r + 1

theorem chainDepth_eq (m : Manifest) :
    chainDepth m = match m.rollback with | none => 0 | some r => chainDepth r + 1 := by
  cases m with
  | mk a b c d e f => cases e <;> simp [chainDepth, Manifest.rollback]

theorem chainDepth_congr {m m' : Manifest} (h : m.rollback = m'.rollback) :
    chainDepth m = chainDepth m' := by
  rw [chainDepth_eq, chainDepth_eq, h]

/-- States reachable from a freshly created package through the core
operations (successful or failing): transactional metadata and file
updates, rollback and rollforward. -/
inductive Reachable (md5f : String → String) : Refpkg → Prop where
  | fresh (cd : String) : Reachable md5f (freshRefpkg cd)
  | meta (k v : String) {s : Refpkg} :
      Reachable md5f s → Reachable md5f (update_metadata k v s).2
  | file (fs : List (String × String)) (k p : String) {s : Refpkg} :
      Reachable md5f s → Reachable md5f (update_file md5f fs k p s).2
  | rollb {s : Refpkg} : Reachable md5f s → Reachable md5f (rollback s).2
  | rollf {s : Refpkg} : Reachable md5f s → Reachable md5f (rollforward s).2

/-- The invariant every reachable state satisfies: no transaction is open,
the manifest has its `log` key, and the rollback chain is no longer than
the log. -/
def Inv (s : Refpkg) : Prop :=
  s.currentTransaction = none ∧
    ∃ l, s.contents.log = some l ∧ chainDepth s.contents ≤ l.length

/-- State analysis of a top-level `update_file` at a state with a log:
either it fails and the state keeps the entry manifest, or it commits a
manifest whose log grew by one entry and whose rollback is the entry
snapshot without its log. -/
theorem update_file_state_cases (md5f : String → String) (fs : List (String × String))
    (k p : String) (s : Refpkg) (l : List String)
    (hct : s.currentTransaction = none) (hlog : s.contents.log = some l) :
    (update_file md5f fs k p s).2.currentTransaction = none ∧
    ((update_file md5f fs k p s).2.contents = s.contents ∨
      ∃ (m : String) (c1 : Manifest), (update_file md5f fs k p s).2.contents
          = (c1.setLog (some (m :: l))).setRollback (some (s.contents.setLog none))) := by
  have hteq : update_file md5f fs k p s = transaction (update_file_body md5f fs k p) s := rfl
  rcases hfs : fs.lookup p with _ | bytes
  · rw [hteq, transaction_fail (update_file_body md5f fs k p) s (withTransaction s)
        ⟨s.contents, placeholderMsg⟩
        (.valueError ("Cannot update Refpkg with file " ++ p))
        hct (by simp [update_file_body, hfs]) rfl]
    exact ⟨rfl, .inl rfl⟩
  · rcases hfk : s.contents.files.lookup k with _ | oldfn
    · rw [hteq, transaction_commit (update_file_body md5f fs k p) s
          { s with
             dir := s.dir ++ [(resolveName (manifestName :: s.dir.map Prod.fst) (basename p), bytes)]
             contents := (s.contents.setFiles (insertD s.contents.files k
               (resolveName (manifestName :: s.dir.map Prod.fst) (basename p)))).setMd5
               (insertD s.contents.md5 k (md5f bytes))
             currentTransaction := some ⟨s.contents, "Updated file: " ++ k ++ "=" ++ p⟩ }
          ⟨s.contents, "Updated file: " ++ k ++ "=" ++ p⟩ (k, md5f bytes) l l
          hct (by simp [update_file_body, withTransaction, hfs, hfk]) rfl
          (by simp [hlog]) hlog]
      exact ⟨rfl, .inr ⟨_, _, rfl⟩⟩
    · by_cases hd : (s.dir.lookup oldfn).isSome
      · rw [hteq, transaction_commit (update_file_body md5f fs k p) s
            { s with
               dir := eraseKey s.dir oldfn ++
                 [(resolveName (manifestName :: s.dir.map Prod.fst) (basename p), bytes)]
               contents := (s.contents.setFiles (insertD s.contents.files k
                 (resolveName (manifestName :: s.dir.map Prod.fst) (basename p)))).setMd5
                 (insertD s.contents.md5 k (md5f bytes))
               currentTransaction := some ⟨s.contents, "Updated file: " ++ k ++ "=" ++ p⟩ }
            ⟨s.contents, "Updated file: " ++ k ++ "=" ++ p⟩ (k, md5f bytes) l l
            hct (by simp [update_file_body, withTransaction, hfs, hfk, hd]) rfl
            (by simp [hlog]) hlog]
        exact ⟨rfl, .inr ⟨_, _, rfl⟩⟩
      · rw [hteq, transaction_fail (update_file_body md5f fs k p) s (withTransaction s)
            ⟨s.contents, placeholderMsg⟩
            (.osError ("No such file or directory: " ++ oldfn))
            hct (by simp [update_file_body, withTransaction, hfs, hfk, hd]) rfl]
        exact ⟨rfl, .inl rfl⟩

theorem chainDepth_setRollback_some (m r : Manifest) :
    chainDepth (m.setRollback (some r)) = chainDepth r + 1 := by
  rw [chainDepth_eq]; simp

theorem chainDepth_setLog (m : Manifest) (x : Option (List String)) :
    chainDepth (m.setLog x) = chainDepth m :=
  chainDepth_congr (by simp)

theorem chainDepth_setRollforward (m : Manifest) (x : Option (String × Manifest)) :
    chainDepth (m.setRollforward x) = chainDepth m :=
  chainDepth_congr (by simp)

theorem rollback_none_run (s : Refpkg) (hrb : s.contents.rollback = none) :
    rollback s = (.error (.valueError "No operation to roll back on refpkg"), s) := by
  unfold rollback
  rw [hrb]

theorem rollback_empty_log_run (s : Refpkg) (rb : Manifest)
    (hrb : s.contents.rollback = some rb) (hlog : s.contents.log = some []) :
    rollback s = (.error (.indexError "list index out of range"), s) := by
  unfold rollback
  rw [hrb]
  dsimp only
  rw [hlog]

theorem rollback_run (s : Refpkg) (rb : Manifest) (x : String) (rest : List String)
    (hrb : s.contents.rollback = some rb) (hlog : s.contents.log = some (x :: rest)) :
    rollback s = (.ok (),
      { s with
         contents := (rb.setLog (some rest)).setRollforward
           (some (x, s.contents.setRollback none)) }) := by
  unfold rollback
  rw [hrb]
  dsimp only
  rw [hlog]

theorem rollforward_none_run (s : Refpkg) (hrf : s.contents.rollforward = none) :
    rollforward s = (.error (.valueError "No operation to roll forward on refpkg"), s) := by
  unfold rollforward
  rw [hrf]

theorem rollforward_run (s : Refpkg) (msg : String) (future : Manifest) (curlog : List String)
    (hrf : s.contents.rollforward = some (msg, future))
    (hlog : s.contents.log = some curlog) :
    rollforward s = (.ok (),
      { s with
         contents := (future.setLog (some (msg :: curlog))).setRollback
           (some ((s.contents.setLog none).setRollforward none)) }) := by
  unfold rollforward
  rw [hrf]
  dsimp only
  rw [hlog]

/-- Every reachable state satisfies the invariant. -/
theorem reachable_inv {md5f : String → String} {s : Refpkg}
    (h : Reachable md5f s) : Inv s := by
  induction h with
  | fresh cd =>
    refine ⟨rfl, [], rfl, ?_⟩
    simp [freshRefpkg, manifest_template, chainDepth]
  | @meta k v s' hr ih =>
    obtain ⟨hct, l, hlog, hd⟩ := ih
    rw [update_metadata_run k v s' l hct hlog]
    refine ⟨rfl, ("Updated metadata: " ++ k ++ "=" ++ v) :: l, by simp, ?_⟩
    rw [chainDepth_setRollback_some, chainDepth_setLog]
    simpa using hd
  | @file fs k p s' hr ih =>
    obtain ⟨hct, l, hlog, hd⟩ := ih
    obtain ⟨hct2, hcases⟩ := update_file_state_cases md5f fs k p s' l hct hlog
    refine ⟨hct2, ?_⟩
    rcases hcases with heq | ⟨m, c1, heq⟩
    · exact ⟨l, by rw [heq]; exact hlog, by rw [heq]; exact hd⟩
    · refine ⟨m :: l, by rw [heq]; simp, ?_⟩
      rw [heq, chainDepth_setRollback_some, chainDepth_setLog]
      simpa using hd
  | @rollb s' hr ih =>
    obtain ⟨hct, l, hlog, hd⟩ := ih
    rcases hrb : s'.contents.rollback with _ | rb
    · rw [rollback_none_run s' hrb]
      exact ⟨hct, l, hlog, hd⟩
    · cases l with
      | nil =>
        rw [rollback_empty_log_run s' rb hrb hlog]
        exact ⟨hct, [], hlog, hd⟩
      | cons x rest =>
        rw [rollback_run s' rb x rest hrb hlog]
        have hdep : chainDepth s'.contents = chainDepth rb + 1 := by
          rw [chainDepth_eq, hrb]
        refine ⟨hct, rest, by simp, ?_⟩
        rw [chainDepth_setRollforward, chainDepth_setLog]
        rw [hdep] at hd
        simp only [List.length_cons] at hd
        omega
  | @rollf s' hr ih =>
    obtain ⟨hct, l, hlog, hd⟩ := ih
    rcases hrf : s'.contents.rollforward with _ | ⟨msg, future⟩
    · rw [rollforward_none_run s' hrf]
      exact ⟨hct, l, hlog, hd⟩
    · rw [rollforward_run s' msg future l hrf hlog]
      refine ⟨hct, msg :: l, by simp, ?_⟩
      rw [chainDepth_setRollback_some, chainDepth_setRollforward, chainDepth_setLog]
      simp only [List.length_cons]
      omega

/-! ## Claim theorems -/

/-- C1: the revert path of a failed owner transaction does replace the
in-memory manifest with the snapshot, but it then calls the undefined
attribute `sync_to_disk` (the method is `_sync_to_disk`), so an
AttributeError is raised in place of the body's original error and the
reverted manifest is never persisted.  Concretely, `update_file` on a fresh
package with a nonexistent source path: the body raises the
SourceFileMissing ValueError, while the decorated call surfaces the
AttributeError and leaves the whole state (disk manifest included) equal to
the pre-call state only because nothing was ever written. -/
theorem failed_transaction_reverts_but_raises_attribute_error :
    (update_file_body (fun b => b) [] "boot" "nope" (withTransaction (freshRefpkg "2026"))).1
        = .error (.valueError "Cannot update Refpkg with file nope") ∧
    update_file (fun b => b) [] "boot" "nope" (freshRefpkg "2026")
        = (.error syncAttrError, freshRefpkg "2026") :=
  ⟨rfl, rfl⟩

/-- C2: opening a package whose registered file was corrupted (recomputed
digest "AAA" differs from the stored digest "BBB") does fail, but with the
TypeError raised while formatting the mismatch message (four conversions,
two arguments), not with the InvalidPackage ValueError citing the found and
expected digests. -/
theorem open_with_corrupt_file_raises_type_error :
    (fun b => b) "AAA" ≠ "BBB" ∧
    openRefpkg (fun b => b) [("boot.fa", "AAA")]
        (Manifest.mk [] [("boot", "boot.fa")] [("boot", "BBB")] (some []) none none)
      = .error (.typeError "not enough arguments for format string") :=
  ⟨by decide, rfl⟩

/-- C3: a structurally well-formed manifest carrying a rollforward pair,
with equal (empty) key sets and no hash mismatch, is nevertheless reported
invalid: the `isinstance(..., dict)` check on `rollforward` rejects the
two-element list that `rollback()` itself stores there, contradicting the
claimed validation condition (and the docstring of `isinvalid`). -/
theorem isinvalid_rejects_manifest_with_rollforward_pair :
    keysEq [] [] = true ∧
    checkFilesMd5 (fun b => b) [] [] [] = .ok none ∧
    isinvalid (fun b => b) true []
        (Manifest.mk [] [] [] (some []) none (some ("m", manifest_template "2026")))
      = .ok (some "Key rollforward in manifest did not refer to a dictionary or None") :=
  ⟨rfl, rfl, rfl⟩

/-- True when the rollback snapshot nested in a manifest carries a non-null
rollforward record. -/
def nestedRollforwardFlag (c : Manifest) : Bool :=
  match c.rollback with
  | some m => m.rollforward.isSome
  | none => false

/-- C4 counterexample: mutate, roll back, mutate again (so the pre-mutation
state carries a stale rollforward record), then rollback-rollforward.  The
result is not equal to the post-mutation manifest: the rollforward field
inside its rollback snapshot was cleared rather than preserved. -/
theorem rollback_rollforward_not_exact_inverse :
    (rollforward (rollback (update_metadata "b" "2"
          (rollback (update_metadata "a" "1" (freshRefpkg "2026")).2).2).2).2).2.contents
      ≠ (update_metadata "b" "2"
          (rollback (update_metadata "a" "1" (freshRefpkg "2026")).2).2).2.contents :=
  fun h => absurd (congrArg nestedRollforwardFlag h) (by decide)

/-- C4 (amended): when the pre-mutation manifest carries no rollforward
record, a committed mutation followed by `rollback()` and `rollforward()`
restores exactly the post-mutation manifest; the intermediate state equals
the pre-mutation state once its rollforward record is ignored (its log and
metadata are exactly the pre-mutation ones), and that record holds the
transaction's log message with the demoted post-mutation manifest. -/
theorem rollback_rollforward_inverse (k v : String) (s : Refpkg) (l : List String)
    (hct : s.currentTransaction = none) (hlog : s.contents.log = some l)
    (hrf : s.contents.rollforward = none) :
    (rollforward (rollback (update_metadata k v s).2).2).2.contents
        = (update_metadata k v s).2.contents ∧
    (rollback (update_metadata k v s).2).2.contents.setRollforward none = s.contents ∧
    (rollback (update_metadata k v s).2).2.contents.log = s.contents.log ∧
    (rollback (update_metadata k v s).2).2.contents.rollforward
        = some ("Updated metadata: " ++ k ++ "=" ++ v,
            (update_metadata k v s).2.contents.setRollback none) := by
  obtain ⟨c, dk, dr, ct⟩ := s
  cases c with
  | mk md fls h5 lg rb rf =>
    simp only at hct
    simp only [Manifest.log] at hlog
    simp only [Manifest.rollforward] at hrf
    subst hct
    subst hlog
    subst hrf
    exact ⟨rfl, rfl, rfl, rfl⟩

/-- Witness for C4: Scenario B and C concretely. -/
theorem rollback_rollforward_inverse_witness :
    ((rollforward (rollback (update_metadata "author" "alice" (freshRefpkg "2026")).2).2).2.contents
        = (update_metadata "author" "alice" (freshRefpkg "2026")).2.contents ∧
      (rollback (update_metadata "author" "alice" (freshRefpkg "2026")).2).2.contents.setRollforward none
        = (freshRefpkg "2026").contents ∧
      (rollback (update_metadata "author" "alice" (freshRefpkg "2026")).2).2.contents.log
        = (freshRefpkg "2026").contents.log ∧
      (rollback (update_metadata "author" "alice" (freshRefpkg "2026")).2).2.contents.rollforward
        = some ("Updated metadata: " ++ "author" ++ "=" ++ "alice",
            (update_metadata "author" "alice" (freshRefpkg "2026")).2.contents.setRollback none)) ∧
    (rollback (update_metadata "author" "alice" (freshRefpkg "2026")).2).2.contents.metadata.lookup "author"
        = none ∧
    (rollback (update_metadata "author" "alice" (freshRefpkg "2026")).2).2.contents.log = some [] :=
  ⟨rollback_rollforward_inverse "author" "alice" (freshRefpkg "2026") [] rfl rfl rfl,
   rfl, rfl⟩

/-- C5: a successful top-level transaction (here `update_metadata`)
prepends its log message to the manifest log, sets `rollback` to the entry
snapshot with its log field removed, persists the new manifest to disk, and
returns the body's result - the previous value of the key or none. -/
theorem update_metadata_commit_spec (k v : String) (s : Refpkg) (l : List String)
    (hct : s.currentTransaction = none) (hlog : s.contents.log = some l) :
    update_metadata k v s =
      (.ok (some (s.contents.metadata.lookup k)),
       { contents := ((s.contents.setMetadata (insertD s.contents.metadata k v)).setLog
            (some (("Updated metadata: " ++ k ++ "=" ++ v) :: l))).setRollback
            (some (s.contents.setLog none))
         disk := ((s.contents.setMetadata (insertD s.contents.metadata k v)).setLog
            (some (("Updated metadata: " ++ k ++ "=" ++ v) :: l))).setRollback
            (some (s.contents.setLog none))
         dir := s.dir
         currentTransaction := none }) :=
  update_metadata_run k v s l hct hlog

/-- Witness for C5: Scenario B - on a fresh package the log becomes the one
update message, the key reads back, the rollback slot is filled, and the
disk copy equals the committed manifest. -/
theorem update_metadata_commit_spec_witness :
    update_metadata "author" "alice" (freshRefpkg "2026") =
      (.ok (some ((freshRefpkg "2026").contents.metadata.lookup "author")),
       { contents := (((freshRefpkg "2026").contents.setMetadata
            (insertD (freshRefpkg "2026").contents.metadata "author" "alice")).setLog
            (some (("Updated metadata: " ++ "author" ++ "=" ++ "alice") :: []))).setRollback
            (some ((freshRefpkg "2026").contents.setLog none))
         disk := (((freshRefpkg "2026").contents.setMetadata
            (insertD (freshRefpkg "2026").contents.metadata "author" "alice")).setLog
            (some (("Updated metadata: " ++ "author" ++ "=" ++ "alice") :: []))).setRollback
            (some ((freshRefpkg "2026").contents.setLog none))
         dir := (freshRefpkg "2026").dir
         currentTransaction := none }) ∧
    (update_metadata "author" "alice" (freshRefpkg "2026")).1 = .ok (some none) ∧
    (update_metadata "author" "alice" (freshRefpkg "2026")).2.contents.log
        = some ["Updated metadata: author=alice"] ∧
    (update_metadata "author" "alice" (freshRefpkg "2026")).2.contents.metadata.lookup "author"
        = some "alice" ∧
    (update_metadata "author" "alice" (freshRefpkg "2026")).2.contents.rollback ≠ none ∧
    (update_metadata "author" "alice" (freshRefpkg "2026")).2.disk
        = (update_metadata "author" "alice" (freshRefpkg "2026")).2.contents :=
  ⟨update_metadata_commit_spec "author" "alice" (freshRefpkg "2026") [] rfl rfl,
   rfl, rfl, rfl, fun h => Option.noConfusion h, rfl⟩

/-- C6 counterexample: the decorated `update_file` called at top level with
a nonexistent source path does not surface the SourceFileMissing ValueError
- the revert path masks it with the `sync_to_disk` AttributeError. -/
theorem update_file_error_masked :
    (update_file (fun b => b) [] "tree" "missing.fa" (freshRefpkg "2026")).1
      ≠ .error (.valueError "Cannot update Refpkg with file missing.fa") :=
  fun h => PyError.noConfusion (Except.error.inj h)

/-- C6 (amended): the registry operation (the `update_file` body) fails
with the SourceFileMissing ValueError exactly when the source path does not
exist, and leaves the state unchanged in that case; when the source exists,
it resolves the stored name by appending the suffix character until no file
of that name exists in the package directory, deletes the file previously
registered under the key, copies the source in, updates `files` and `md5`,
and returns the `(key, hash)` pair. -/
theorem update_file_registry_spec (md5f : String → String) (fs : List (String × String))
    (key new_path : String) (s : Refpkg) :
    ((update_file_body md5f fs key new_path s).1
        = .error (.valueError ("Cannot update Refpkg with file " ++ new_path))
      ↔ fs.lookup new_path = none) ∧
    (fs.lookup new_path = none → (update_file_body md5f fs key new_path s).2 = s) ∧
    (∀ (bytes : String) (t : Trans), fs.lookup new_path = some bytes →
      s.currentTransaction = some t → s.contents.files.lookup key = none →
      update_file_body md5f fs key new_path s =
        (.ok (key, md5f bytes),
         { s with
            dir := s.dir ++ [(resolveName (manifestName :: s.dir.map Prod.fst)
              (basename new_path), bytes)]
            contents := (s.contents.setFiles (insertD s.contents.files key
              (resolveName (manifestName :: s.dir.map Prod.fst) (basename new_path)))).setMd5
              (insertD s.contents.md5 key (md5f bytes))
            currentTransaction := some (Trans.mk t.rollback
              ("Updated file: " ++ key ++ "=" ++ new_path)) })) ∧
    (∀ (bytes : String) (t : Trans) (oldfn : String), fs.lookup new_path = some bytes →
      s.currentTransaction = some t → s.contents.files.lookup key = some oldfn →
      (s.dir.lookup oldfn).isSome = true →
      update_file_body md5f fs key new_path s =
        (.ok (key, md5f bytes),
         { s with
            dir := eraseKey s.dir oldfn ++ [(resolveName (manifestName :: s.dir.map Prod.fst)
              (basename new_path), bytes)]
            contents := (s.contents.setFiles (insertD s.contents.files key
              (resolveName (manifestName :: s.dir.map Prod.fst) (basename new_path)))).setMd5
              (insertD s.contents.md5 key (md5f bytes))
            currentTransaction := some (Trans.mk t.rollback
              ("Updated file: " ++ key ++ "=" ++ new_path)) })) := by
  refine ⟨⟨?_, ?_⟩, ?_, ?_, ?_⟩
  · intro h
    rcases hfs : fs.lookup new_path with _ | bytes
    · rfl
    · exfalso
      rcases hfk : s.contents.files.lookup key with _ | oldfn
      · rcases hc : s.currentTransaction with _ | t
        · simp [update_file_body, hfs, hfk, hc] at h
        · simp [update_file_body, hfs, hfk, hc] at h
      · by_cases hd : (s.dir.lookup oldfn).isSome
        · rcases hc : s.currentTransaction with _ | t
          · simp [update_file_body, hfs, hfk, hd, hc] at h
          · simp [update_file_body, hfs, hfk, hd, hc] at h
        · simp [update_file_body, hfs, hfk, hd] at h
  · intro h
    simp [update_file_body, h]
  · intro h
    simp [update_file_body, h]
  · intro bytes t h1 h2 h3
    simp [update_file_body, h1, h2, h3]
  · intro bytes t oldfn h1 h2 h3 h4
    simp [update_file_body, h1, h2, h3, h4]

/-- Witness for C6: registering `a/boot.fa` under `tree` inside an open
transaction succeeds with the `(key, hash)` pair; a missing source fails
with the SourceFileMissing ValueError; the collision loop keeps a free
basename and suffixes a taken one. -/
theorem update_file_registry_spec_witness :
    (update_file_body (fun b => b) [("a/boot.fa", "SEQ")] "tree" "a/boot.fa"
        (withTransaction (freshRefpkg "2026"))).1 = .ok ("tree", "SEQ") ∧
    (update_file_body (fun b => b) [] "tree" "gone.fa"
        (withTransaction (freshRefpkg "2026"))).1
      = .error (.valueError "Cannot update Refpkg with file gone.fa") ∧
    resolveName [manifestName] "boot.fa" = "boot.fa" ∧
    resolveName ["CONTENTS.json", "boot.fa"] "boot.fa" = "boot.fa1" :=
  ⟨by rw [(update_file_registry_spec (fun b => b) [("a/boot.fa", "SEQ")] "tree" "a/boot.fa"
        (withTransaction (freshRefpkg "2026"))).2.2.1 "SEQ"
        ⟨(freshRefpkg "2026").contents, placeholderMsg⟩ rfl rfl rfl],
   (update_file_registry_spec (fun b => b) [] "tree" "gone.fa"
        (withTransaction (freshRefpkg "2026"))).1.mpr rfl,
   by rw [resolveName.eq_def, dif_neg]; simp [manifestName],
   by
     rw [resolveName.eq_def, dif_pos (by simp)]
     rw [show ("boot.fa" ++ "1") = "boot.fa1" from rfl]
     rw [resolveName.eq_def, dif_neg (by simp)]⟩

/-- C7 counterexample: after Scenario B and a rollback, `rollforward()`
stores as the new manifest's rollback a snapshot whose `log` key was
popped, not the claimed copy of the current manifest (log retained) with
only `rollforward` cleared. -/
theorem rollforward_pops_log_from_demoted_manifest :
    (rollforward (rollback (update_metadata "author" "alice"
          (freshRefpkg "2026")).2).2).2.contents.rollback
      ≠ some ((rollback (update_metadata "author" "alice"
          (freshRefpkg "2026")).2).2.contents.setRollforward none) :=
  fun h => absurd (congrArg (fun o => o.map Manifest.log) h) (by decide)

/-- C7 (amended): `rollforward()` raises NoFuture exactly when the
rollforward slot is null; otherwise, with `(msg, future)` the stored pair
and the current log present, it sets the future's log to the message
prepended to the current log, sets the future's rollback to the current
manifest with its log entry removed and rollforward cleared, and promotes
the future. -/
theorem rollforward_spec (s : Refpkg) :
    (s.contents.rollforward = none →
      rollforward s = (.error (.valueError "No operation to roll forward on refpkg"), s)) ∧
    (s.contents.rollforward ≠ none →
      (rollforward s).1 ≠ .error (.valueError "No operation to roll forward on refpkg")) ∧
    (∀ (msg : String) (future : Manifest) (curlog : List String),
      s.contents.rollforward = some (msg, future) → s.contents.log = some curlog →
      rollforward s = (.ok (),
        { s with
           contents := (future.setLog (some (msg :: curlog))).setRollback
             (some ((s.contents.setLog none).setRollforward none)) })) := by
  refine ⟨fun h => rollforward_none_run s h, ?_,
    fun msg future curlog h1 h2 => rollforward_run s msg future curlog h1 h2⟩
  intro hne
  rcases hrf : s.contents.rollforward with _ | ⟨msg, future⟩
  · exact absurd hrf hne
  · rcases hlog : s.contents.log with _ | curlog
    · unfold rollforward
      rw [hrf]
      dsimp only
      rw [hlog]
      simp
    · rw [rollforward_run s msg future curlog hrf hlog]
      simp

/-- Witness for C7: the NoFuture error on a fresh package and the promote
equation on the state reached by Scenario B plus a rollback. -/
theorem rollforward_spec_witness :
    rollforward (freshRefpkg "2026")
        = (.error (.valueError "No operation to roll forward on refpkg"), freshRefpkg "2026") ∧
    rollforward (rollback (update_metadata "author" "alice" (freshRefpkg "2026")).2).2
        = (.ok (),
           { (rollback (update_metadata "author" "alice" (freshRefpkg "2026")).2).2 with
              contents := (((update_metadata "author" "alice"
                  (freshRefpkg "2026")).2.contents.setRollback none).setLog
                    (some ("Updated metadata: author=alice" :: []))).setRollback
                  (some (((rollback (update_metadata "author" "alice"
                      (freshRefpkg "2026")).2).2.contents.setLog none).setRollforward none)) }) :=
  ⟨(rollforward_spec (freshRefpkg "2026")).1 rfl,
   (rollforward_spec (rollback (update_metadata "author" "alice"
        (freshRefpkg "2026")).2).2).2.2 "Updated metadata: author=alice"
     ((update_metadata "author" "alice" (freshRefpkg "2026")).2.contents.setRollback none) []
     rfl rfl⟩

/-- C8: a transactional operation invoked while a transaction is already
open runs its body but discards the result (the reentrant branch has no
return, so the call yields Python None), whereas the same body invoked at
top level has its result wrapped and returned by the commit path. -/
theorem transaction_reentrant_discards {α : Type} (f : Refpkg → Except PyError α × Refpkg)
    (s s1 : Refpkg) (t : Trans) (v : α) :
    (s.currentTransaction = some t → f s = (.ok v, s1) →
      transaction f s = (.ok none, s1)) ∧
    (∀ (ct : Trans) (l l2 : List String), s.currentTransaction = none →
      f (withTransaction s) = (.ok v, s1) → s1.currentTransaction = some ct →
      s1.contents.log = some l → ct.rollback.log = some l2 →
      (transaction f s).1 = .ok (some v)) := by
  constructor
  · exact fun h1 h2 => transaction_reentrant f s s1 t v h1 h2
  · intro ct l l2 h1 h2 h3 h4 h5
    rw [transaction_commit f s s1 ct v l l2 h1 h2 h3 h4 h5]

/-- Witness for C8: the same metadata-update body returns None when run
reentrantly and returns the body's result (the old value, None) at top
level. -/
theorem transaction_reentrant_discards_witness :
    (transaction (update_metadata_body "a" "b") (withTransaction (freshRefpkg "2026"))).1
        = .ok none ∧
    (transaction (update_metadata_body "a" "b") (freshRefpkg "2026")).1
        = .ok (some none) :=
  ⟨by rw [(transaction_reentrant_discards (update_metadata_body "a" "b")
        (withTransaction (freshRefpkg "2026"))
        { contents := (manifest_template "2026").setMetadata
            (insertD (manifest_template "2026").metadata "a" "b")
          disk := manifest_template "2026"
          dir := []
          currentTransaction := some (Trans.mk (manifest_template "2026")
            "Updated metadata: a=b") }
        (Trans.mk (manifest_template "2026") placeholderMsg) none).1 rfl rfl],
   (transaction_reentrant_discards (update_metadata_body "a" "b") (freshRefpkg "2026")
        { contents := (manifest_template "2026").setMetadata
            (insertD (manifest_template "2026").metadata "a" "b")
          disk := manifest_template "2026"
          dir := []
          currentTransaction := some (Trans.mk (manifest_template "2026")
            "Updated metadata: a=b") }
        (Trans.mk (manifest_template "2026") placeholderMsg) none).2
     (Trans.mk (manifest_template "2026") "Updated metadata: a=b") [] [] rfl rfl rfl rfl rfl⟩

/-- C9: the commit path touches only log, rollback and the disk copy, so a
stale rollforward record survives the commit of a later unrelated
transaction; a subsequent `rollforward()` then succeeds and promotes the
stale discarded future. -/
theorem commit_keeps_stale_rollforward (k v msg : String) (fut : Manifest)
    (s : Refpkg) (l : List String)
    (hct : s.currentTransaction = none) (hlog : s.contents.log = some l)
    (hrf : s.contents.rollforward = some (msg, fut)) :
    (update_metadata k v s).2.contents.rollforward = some (msg, fut) ∧
    (rollforward (update_metadata k v s).2).1 = .ok () ∧
    (rollforward (update_metadata k v s).2).2.contents
      = (fut.setLog (some (msg :: ("Updated metadata: " ++ k ++ "=" ++ v) :: l))).setRollback
          (some (((update_metadata k v s).2.contents.setLog none).setRollforward none)) := by
  have h1 : (update_metadata k v s).2.contents.rollforward = some (msg, fut) := by
    rw [update_metadata_run k v s l hct hlog]
    simpa using hrf
  have h2 : (update_metadata k v s).2.contents.log
      = some (("Updated metadata: " ++ k ++ "=" ++ v) :: l) := by
    rw [update_metadata_run k v s l hct hlog]
    simp
  refine ⟨h1, ?_, ?_⟩
  · rw [rollforward_run _ msg fut _ h1 h2]
  · rw [rollforward_run _ msg fut _ h1 h2]

/-- Witness for C9: after Scenario B and a rollback, committing an
unrelated metadata update keeps the stale redo record, and rolling forward
promotes it. -/
theorem commit_keeps_stale_rollforward_witness :
    (update_metadata "b" "2" (rollback (update_metadata "author" "alice"
          (freshRefpkg "2026")).2).2).2.contents.rollforward
        = some ("Updated metadata: author=alice",
            (update_metadata "author" "alice" (freshRefpkg "2026")).2.contents.setRollback none) ∧
    (rollforward (update_metadata "b" "2" (rollback (update_metadata "author" "alice"
          (freshRefpkg "2026")).2).2).2).1 = .ok () ∧
    (rollforward (update_metadata "b" "2" (rollback (update_metadata "author" "alice"
          (freshRefpkg "2026")).2).2).2).2.contents
      = (((update_metadata "author" "alice"
            (freshRefpkg "2026")).2.contents.setRollback none).setLog
          (some ("Updated metadata: author=alice"
            :: ("Updated metadata: " ++ "b" ++ "=" ++ "2") :: []))).setRollback
          (some (((update_metadata "b" "2" (rollback (update_metadata "author" "alice"
              (freshRefpkg "2026")).2).2).2.contents.setLog none).setRollforward none)) :=
  commit_keeps_stale_rollforward "b" "2" "Updated metadata: author=alice"
    ((update_metadata "author" "alice" (freshRefpkg "2026")).2.contents.setRollback none)
    (rollback (update_metadata "author" "alice" (freshRefpkg "2026")).2).2 []
    rfl rfl rfl

/-- C10: in every state reachable from a fresh package through the core
operations, a non-null rollback slot implies the log is a non-empty list,
so the unguarded `log[0]` / `log[1:]` accesses of `rollback()` stay in
bounds and the call succeeds whenever its precondition holds. -/
theorem reachable_rollback_access_safe (md5f : String → String) (s : Refpkg)
    (hr : Reachable md5f s) (hrb : s.contents.rollback ≠ none) :
    (∃ x rest, s.contents.log = some (x :: rest)) ∧ (rollback s).1 = .ok () := by
  obtain ⟨hct, l, hlog, hd⟩ := reachable_inv hr
  rcases hrbv : s.contents.rollback with _ | rb
  · exact absurd hrbv hrb
  · have hdep : chainDepth s.contents = chainDepth rb + 1 := by
      rw [chainDepth_eq, hrbv]
    cases l with
    | nil =>
      rw [hdep] at hd
      simp at hd
    | cons x rest =>
      refine ⟨⟨x, rest, hlog⟩, ?_⟩
      rw [rollback_run s rb x rest hrbv hlog]

/-- Witness for C10: the post-Scenario-B state is reachable, has a
non-null rollback, and its `rollback()` succeeds. -/
theorem reachable_rollback_access_safe_witness :
    (∃ x rest, (update_metadata "author" "alice" (freshRefpkg "2026")).2.contents.log
        = some (x :: rest)) ∧
    (rollback (update_metadata "author" "alice" (freshRefpkg "2026")).2).1 = .ok () :=
  reachable_rollback_access_safe (fun b => b) _
    (Reachable.meta "author" "alice" (Reachable.fresh "2026"))
    (fun h => Option.noConfusion h)

end Taxtastic
